import Mathlib

/-!
Verification development for the gold_digger repository.

This file gives a shallow embedding of the parts of the code that the
claims concern: the MySQL value-to-string coercion (src/lib.rs), the
per-cell JSON type inference of the JSON writer (src/json.rs), and the
TLS configuration and error taxonomy (src/tls.rs).  Machine integers are
modelled as Nat/Int with explicit reduction modulo 2^w where the Rust
code performs fixed-width (release-profile wrapping) arithmetic.
Filesystem effects are modelled by an explicit environment parameter.
-/

namespace GoldDigger

/-- Alias so that the constructor named Int below can refer to the
integers in its binder type. -/
abbrev I64 := Int

/-- Zero-padding numeric formatting, the embedding of the Rust format
specifier of the shape 0N on an unsigned integer: decimal digits,
left-padded with the character 0 up to a minimum width. -/
def padZeros (w : Nat) (n : Nat) : String :=
  let s := toString n
  if s.length < w then String.mk (List.replicate (w - s.length) '0') ++ s else s

/-- Embedding of mysql::Value (the row cell type of the mysql crate).
Bytes carries the raw bytes (each in 0..255); Int is i64, UInt is u64;
Date fields are (u16, u8, u8, u8, u8, u8, u32); Time fields are
(bool, u32, u8, u8, u8, u32).  The Float and Double payloads carry the
decimal rendering that the Rust to_string call produces, since IEEE-754
rendering is outside the embedding; the coercion only passes it through. -/
inductive Value where
  | NULL : Value
  | Bytes : List Nat → Value
  | Int : I64 → Value
  | UInt : Nat → Value
  | Float : String → Value
  | Double : String → Value
  | Date : Nat → Nat → Nat → Nat → Nat → Nat → Nat → Value
  | Time : Bool → Nat → Nat → Nat → Nat → Nat → Value
deriving DecidableEq

/-- Is the byte a UTF-8 continuation byte (0x80..0xBF)? -/
def isCont (b : Nat) : Bool := 128 ≤ b && b ≤ 191

/-- UTF-8 decoding of a byte list into characters, mirroring the
validation done by Rust String::from_utf8: rejects overlong encodings,
surrogate code points and values above 0x10FFFF.  Returns none exactly
when the Rust call returns Err. -/
def utf8Decode : List Nat → Option (List Char)
  | [] => some []
  | b :: rest =>
    if b < 128 then
      (utf8Decode rest).map (fun cs => Char.ofNat b :: cs)
    else if b < 194 then
      none
    else if b ≤ 223 then
      match rest with
      | b1 :: rest2 =>
        if isCont b1 then
          (utf8Decode rest2).map (fun cs => Char.ofNat ((b - 192) * 64 + (b1 - 128)) :: cs)
        else none
      | [] => none
    else if b ≤ 239 then
      match rest with
      | b1 :: b2 :: rest3 =>
        let firstOk :=
          if b = 224 then 160 ≤ b1 && b1 ≤ 191
          else if b = 237 then 128 ≤ b1 && b1 ≤ 159
          else isCont b1
        if firstOk && isCont b2 then
          (utf8Decode rest3).map
            (fun cs => Char.ofNat ((b - 224) * 4096 + (b1 - 128) * 64 + (b2 - 128)) :: cs)
        else none
      | _ => none
    else if b ≤ 244 then
      match rest with
      | b1 :: b2 :: b3 :: rest4 =>
        let firstOk :=
          if b = 240 then 144 ≤ b1 && b1 ≤ 191
          else if b = 244 then 128 ≤ b1 && b1 ≤ 143
          else isCont b1
        if firstOk && isCont b2 && isCont b3 then
          (utf8Decode rest4).map
            (fun cs =>
              Char.ofNat ((b - 240) * 262144 + (b1 - 128) * 4096 + (b2 - 128) * 64 + (b3 - 128)) :: cs)
        else none
      | _ => none
    else none

/-- Embedding of Rust String::from_utf8 on a byte vector. -/
def stringFromUtf8 (bytes : List Nat) : Option String :=
  (utf8Decode bytes).map String.mk

/-- Embedding of the Rust Debug rendering of a Vec of u8, the
fallback used for non-UTF-8 byte sequences: for example [255, 254, 253]. -/
def debugBytes (bytes : List Nat) : String :=
  "[" ++ String.intercalate ", " (bytes.map toString) ++ "]"

/-- Embedding of mysql_value_to_string from src/lib.rs.  The Time arm
performs u32 arithmetic (days * 24 + hours as u32); fixed-width wrapping
is made explicit with a reduction modulo 2^32, the release-profile
semantics of the shipped binary. -/
def mysql_value_to_string : Value → String
  | .NULL => ""
  | .Bytes bytes => (stringFromUtf8 bytes).getD (debugBytes bytes)
  | .Int i => toString i
  | .UInt u => toString u
  | .Float r => r
  | .Double r => r
  | .Date year month day hour minute second microsecond =>
    if hour = 0 ∧ minute = 0 ∧ second = 0 ∧ microsecond = 0 then
      padZeros 4 year ++ "-" ++ padZeros 2 month ++ "-" ++ padZeros 2 day
    else
      padZeros 4 year ++ "-" ++ padZeros 2 month ++ "-" ++ padZeros 2 day ++ " " ++
        padZeros 2 hour ++ ":" ++ padZeros 2 minute ++ ":" ++ padZeros 2 second ++ "." ++
        padZeros 6 microsecond
  | .Time negative days hours minutes seconds microseconds =>
    let sign := if negative then "-" else ""
    if 0 < days then
      sign ++ padZeros 2 ((days * 24 + hours) % 4294967296) ++ ":" ++ padZeros 2 minutes ++
        ":" ++ padZeros 2 seconds ++ "." ++ padZeros 6 microseconds
    else
      sign ++ padZeros 2 hours ++ ":" ++ padZeros 2 minutes ++ ":" ++ padZeros 2 seconds ++
        "." ++ padZeros 6 microseconds

/-- Is the character an ASCII decimal digit? -/
def isAsciiDigit (c : Char) : Bool := '0' ≤ c && c ≤ '9'

/-- Numeric value of a list of ASCII digit characters, most significant
first. -/
def natOfDigits (ds : List Char) : Nat :=
  ds.foldl (fun acc c => acc * 10 + (c.toNat - 48)) 0

/-- Embedding of Rust str::parse on u64: an optional leading plus sign,
then one or more ASCII digits, nothing else; errors on overflow past
2^64 - 1. -/
def rustParseU64 (s : String) : Option Nat :=
  let cs :=
    match s.data with
    | '+' :: rest => rest
    | cs => cs
  if cs ≠ [] ∧ cs.all isAsciiDigit then
    let n := natOfDigits cs
    if n < 18446744073709551616 then some n else none
  else none

/-- Embedding of Rust str::parse on i64: an optional sign, then one or
more ASCII digits, nothing else; errors outside -2^63 .. 2^63 - 1. -/
def rustParseI64 (s : String) : Option Int :=
  match s.data with
  | '-' :: rest =>
    if rest ≠ [] ∧ rest.all isAsciiDigit then
      let n := natOfDigits rest
      if n ≤ 9223372036854775808 then some (-(n : Int)) else none
    else none
  | '+' :: rest =>
    if rest ≠ [] ∧ rest.all isAsciiDigit then
      let n := natOfDigits rest
      if n ≤ 9223372036854775807 then some (n : Int) else none
    else none
  | cs =>
    if cs ≠ [] ∧ cs.all isAsciiDigit then
      let n := natOfDigits cs
      if n ≤ 9223372036854775807 then some (n : Int) else none
    else none

/-- The exponent part of the Rust float grammar, after the letter e or
E has been consumed: an optional sign then one or more digits, ending
the string. -/
def parseExpPart (cs : List Char) : Option Int :=
  match cs with
  | '+' :: rest =>
    if rest ≠ [] ∧ rest.all isAsciiDigit then some ((natOfDigits rest : Int)) else none
  | '-' :: rest =>
    if rest ≠ [] ∧ rest.all isAsciiDigit then some (-(natOfDigits rest : Int)) else none
  | rest =>
    if rest ≠ [] ∧ rest.all isAsciiDigit then some ((natOfDigits rest : Int)) else none

/-- The number part of the Rust float grammar (after any sign):
digits, digits dot digits, digits dot, or dot digits, followed by an
optional exponent.  Returns the unsigned digit value, the number of
fractional digits, and the exponent value. -/
def parseNumberPart (cs : List Char) : Option (Nat × Nat × Int) :=
  let (ds1, rest1) := cs.span isAsciiDigit
  match rest1 with
  | [] => if ds1 = [] then none else some (natOfDigits ds1, 0, 0)
  | '.' :: rest2 =>
    let (ds2, rest3) := rest2.span isAsciiDigit
    if ds1 = [] ∧ ds2 = [] then none
    else
      match rest3 with
      | [] => some (natOfDigits (ds1 ++ ds2), ds2.length, 0)
      | 'e' :: rest4 =>
        (parseExpPart rest4).map (fun ex => (natOfDigits (ds1 ++ ds2), ds2.length, ex))
      | 'E' :: rest4 =>
        (parseExpPart rest4).map (fun ex => (natOfDigits (ds1 ++ ds2), ds2.length, ex))
      | _ => none
  | 'e' :: rest4 =>
    if ds1 = [] then none
    else (parseExpPart rest4).map (fun ex => (natOfDigits ds1, 0, ex))
  | 'E' :: rest4 =>
    if ds1 = [] then none
    else (parseExpPart rest4).map (fun ex => (natOfDigits ds1, 0, ex))
  | _ => none

/-- Embedding of Rust str::parse on f64.  The result is none when the
string is not in the float grammar (parse error); some none when the
string is a non-finite keyword (inf, infinity, nan, case-insensitive,
optionally signed); and some (some (m, e)) when the string is a numeric
literal whose exact mathematical value is m * 10^e.  Only the exact
literal value and finiteness after rounding matter to the claims, so
the binary rounding itself is not modelled. -/
def rustParseF64 (s : String) : Option (Option (Int × Int)) :=
  let (neg, cs) :=
    match s.data with
    | '-' :: rest => (true, rest)
    | '+' :: rest => (false, rest)
    | cs => (false, cs)
  let lower := cs.map Char.toLower
  if lower = "inf".data ∨ lower = "infinity".data ∨ lower = "nan".data then some none
  else
    match parseNumberPart cs with
    | some (m, fracLen, ex) =>
      let mi : Int := if neg then -(m : Int) else (m : Int)
      some (some (mi, ex - (fracLen : Int)))
    | none => none

/-- Does the decimal literal m * 10^e round to a finite f64?  An f64
rounds to infinity exactly when the magnitude is at least
2^1024 - 2^970 (the rounding midpoint above the largest finite double);
this is the condition under which serde_json Number::from_f64 accepts
the parsed value. -/
def decFinite (m e : Int) : Bool :=
  if 0 ≤ e then m.natAbs * 10 ^ e.toNat < 2 ^ 1024 - 2 ^ 970
  else m.natAbs < (2 ^ 1024 - 2 ^ 970) * 10 ^ (-e).toNat

/-- Embedding of serde_json::Value restricted to what the writer can
produce.  numU and numI are the exact u64 and i64 payloads of
serde_json Number; numF records the exact decimal value m * 10^e of the
literal accepted by Number::from_f64. -/
inductive JsonValue where
  | null : JsonValue
  | str : String → JsonValue
  | numU : Nat → JsonValue
  | numI : Int → JsonValue
  | numF : Int → Int → JsonValue
  | bool : Bool → JsonValue
deriving DecidableEq

/-- Embedding of Rust str::to_lowercase as used for the boolean
comparison: ASCII case mapping per character (the Unicode-aware cases
of the Rust call do not affect comparisons against true and false). -/
def rustToLowercase (s : String) : String := String.mk (s.data.map Char.toLower)

/-- Embedding of the per-cell type inference of JsonWriter::write_row
in src/json.rs: empty string stays a string; else try u64, then i64,
then f64 (kept only when from_f64 accepts a finite value, otherwise
falling back to the original string); else the case-insensitive
true/false comparison; else the string verbatim. -/
def inferJsonValue (val : String) : JsonValue :=
  if val = "" then .str val
  else
    match rustParseU64 val with
    | some n => .numU n
    | none =>
      match rustParseI64 val with
      | some i => .numI i
      | none =>
        match rustParseF64 val with
        | some (some (m, e)) => if decFinite m e then .numF m e else .str val
        | some none => .str val
        | none =>
          if rustToLowercase val = "true" then .bool true
          else if rustToLowercase val = "false" then .bool false
          else .str val

/-- Embedding of the TlsError enum of src/tls.rs, with the same
variants in the same order; message payloads are carried as strings and
paths as their display strings. -/
inductive TlsError where
  | CertificateValidationFailed : String → TlsError
  | CaFileNotFound : String → TlsError
  | InvalidCaFormat : String → String → TlsError
  | HandshakeFailed : String → TlsError
  | HostnameVerificationFailed : String → String → TlsError
  | CertificateTimeInvalid : String → TlsError
  | MutuallyExclusiveFlags : String → TlsError
  | ConnectionFailed : String → TlsError
  | UnsupportedTlsVersion : String → TlsError
  | FeatureNotEnabled : TlsError
  | InsecureCredentials : TlsError
  | InvalidSignature : String → TlsError
  | UnknownCertificateAuthority : String → TlsError
  | InvalidCertificatePurpose : String → TlsError
  | CertificateChainInvalid : String → TlsError
  | CertificateRevoked : String → TlsError
  | ProtocolVersionMismatch : String → TlsError
  | CipherSuiteNegotiationFailed : String → TlsError
  | ServerAlert : String → TlsError
  | PeerMisbehaved : String → TlsError
deriving DecidableEq

namespace TlsError

/-- Embedding of TlsError::suggest_cli_flag: the CLI flag suggested to
resolve the error, when one applies. -/
def suggest_cli_flag : TlsError → Option String
  | .HostnameVerificationFailed _ _ => some "--insecure-skip-hostname-verify"
  | .CertificateTimeInvalid _ => some "--allow-invalid-certificate"
  | .InvalidSignature _ => some "--allow-invalid-certificate"
  | .UnknownCertificateAuthority _ => some "--tls-ca-file <path> or --allow-invalid-certificate"
  | .InvalidCertificatePurpose _ => some "--allow-invalid-certificate"
  | .CertificateChainInvalid _ => some "--allow-invalid-certificate"
  | .CertificateRevoked _ => some "--allow-invalid-certificate"
  | .CertificateValidationFailed _ => some "--allow-invalid-certificate"
  | .ProtocolVersionMismatch _ => none
  | .CipherSuiteNegotiationFailed _ => none
  | .ServerAlert _ => none
  | .PeerMisbehaved _ => none
  | .HandshakeFailed _ => none
  | .ConnectionFailed _ => none
  | .CaFileNotFound _ => none
  | .InvalidCaFormat _ _ => none
  | .MutuallyExclusiveFlags _ => none
  | .UnsupportedTlsVersion _ => none
  | .FeatureNotEnabled => none
  | .InsecureCredentials => none

/-- Embedding of TlsError::is_certificate_error. -/
def is_certificate_error : TlsError → Bool
  | .CertificateValidationFailed _ => true
  | .CertificateTimeInvalid _ => true
  | .InvalidSignature _ => true
  | .UnknownCertificateAuthority _ => true
  | .InvalidCertificatePurpose _ => true
  | .CertificateChainInvalid _ => true
  | .CertificateRevoked _ => true
  | _ => false

/-- Embedding of TlsError::is_hostname_error. -/
def is_hostname_error : TlsError → Bool
  | .HostnameVerificationFailed _ _ => true
  | _ => false

/-- Embedding of TlsError::is_server_configuration_error. -/
def is_server_configuration_error : TlsError → Bool
  | .ProtocolVersionMismatch _ => true
  | .CipherSuiteNegotiationFailed _ => true
  | .ServerAlert _ => true
  | .PeerMisbehaved _ => true
  | .UnsupportedTlsVersion _ => true
  | _ => false

/-- Embedding of TlsError::is_client_configuration_error. -/
def is_client_configuration_error : TlsError → Bool
  | .CaFileNotFound _ => true
  | .InvalidCaFormat _ _ => true
  | .MutuallyExclusiveFlags _ => true
  | .FeatureNotEnabled => true
  | _ => false

/-- Number of the four classification predicates that hold of an
error. -/
def classificationCount (e : TlsError) : Nat :=
  (if e.is_certificate_error then 1 else 0) + (if e.is_hostname_error then 1 else 0) +
    (if e.is_server_configuration_error then 1 else 0) +
    (if e.is_client_configuration_error then 1 else 0)

end TlsError

/-- Embedding of the TlsValidationMode enum of src/tls.rs; the custom
CA path is carried as its display string. -/
inductive TlsValidationMode where
  | Platform : TlsValidationMode
  | CustomCa : String → TlsValidationMode
  | SkipHostnameVerification : TlsValidationMode
  | AcceptInvalid : TlsValidationMode
deriving DecidableEq

/-- Embedding of the TlsConfig struct of src/tls.rs. -/
structure TlsConfig where
  enabled : Bool
  validation_mode : TlsValidationMode
deriving DecidableEq

/-- The list of flag names that from_cli_args pushes when building a
MutuallyExclusiveFlags error, in source order: the CA flag, then the
hostname flag, then the accept-invalid flag. -/
def setFlagNames (ca_file : Option String) (skip_hostname accept_invalid : Bool) : List String :=
  (if ca_file.isSome then ["--tls-ca-file"] else []) ++
    (if skip_hostname then ["--insecure-skip-hostname-verify"] else []) ++
    (if accept_invalid then ["--allow-invalid-certificate"] else [])

/-- Number of the three TLS selectors that are set. -/
def tlsFlagCount (ca_file : Option String) (skip_hostname accept_invalid : Bool) : Nat :=
  ([ca_file.isSome, skip_hostname, accept_invalid].filter (fun b => b)).length

/-- Embedding of TlsConfig::from_cli_args.  The filesystem existence
check on the CA path is abstracted by the fileExists parameter. -/
def from_cli_args (fileExists : String → Bool) (ca_file : Option String)
    (skip_hostname accept_invalid : Bool) : Except TlsError TlsConfig :=
  if 1 < tlsFlagCount ca_file skip_hostname accept_invalid then
    .error (.MutuallyExclusiveFlags
      (String.intercalate ", " (setFlagNames ca_file skip_hostname accept_invalid)))
  else
    match ca_file with
    | some ca_file_path =>
      if fileExists ca_file_path then
        .ok ⟨true, .CustomCa ca_file_path⟩
      else
        .error (.CaFileNotFound ca_file_path)
    | none =>
      if skip_hostname then .ok ⟨true, .SkipHostnameVerification⟩
      else if accept_invalid then .ok ⟨true, .AcceptInvalid⟩
      else .ok ⟨true, .Platform⟩

/-- Abstract state of a CA file on disk, the environment of
cert_utils::load_ca_certificates: missing; present but not openable
(with the io error message); openable but failing PEM parsing (with the
parse error message); or parsed into a list of DER certificates, each a
byte list. -/
inductive FileState where
  | absent : FileState
  | unreadable : String → FileState
  | parseFailure : String → FileState
  | certificates : List (List Nat) → FileState
deriving DecidableEq

/-- Embedding of cert_utils::load_ca_certificates in src/tls.rs over
the abstract filesystem: missing file is CaFileNotFound; an unreadable
file, a PEM parse failure, and an empty certificate list are the three
InvalidCaFormat cases, with the messages of the source. -/
def load_ca_certificates (fs : String → FileState) (path : String) :
    Except TlsError (List (List Nat)) :=
  match fs path with
  | .absent => .error (.CaFileNotFound path)
  | .unreadable ioMsg => .error (.InvalidCaFormat path ("Cannot read certificate file: " ++ ioMsg))
  | .parseFailure msg =>
    .error (.InvalidCaFormat path ("Failed to parse PEM certificates: " ++ msg))
  | .certificates certs =>
    if certs = [] then .error (.InvalidCaFormat path "No valid certificates found in file")
    else .ok certs

/-- Embedding of cert_utils::validate_ca_file. -/
def validate_ca_file (fs : String → FileState) (path : String) : Except TlsError Unit :=
  (load_ca_certificates fs path).map (fun _ => ())

/-- Embedding of mysql::SslOpts restricted to the fields that
TlsConfig::to_ssl_opts sets. -/
structure SslOpts where
  root_cert_path : Option String
  skip_domain_validation : Bool
  accept_invalid_certs : Bool
deriving DecidableEq

/-- The default SslOpts value. -/
def SslOpts.base : SslOpts := ⟨none, false, false⟩

/-- Embedding of TlsConfig::to_ssl_opts (ssl feature): disabled
configurations produce no options; a CustomCa configuration first
validates the CA file, then each mode materializes its SslOpts. -/
def to_ssl_opts (fs : String → FileState) (cfg : TlsConfig) :
    Except TlsError (Option SslOpts) :=
  if cfg.enabled = false then .ok none
  else
    match cfg.validation_mode with
    | .Platform => .ok (some SslOpts.base)
    | .CustomCa ca_file_path =>
      match validate_ca_file fs ca_file_path with
      | .error e => .error e
      | .ok _ => .ok (some ⟨some ca_file_path, false, false⟩)
    | .SkipHostnameVerification => .ok (some ⟨none, true, false⟩)
    | .AcceptInvalid => .ok (some ⟨none, true, true⟩)

/-- C1: the value coercion mysql_value_to_string is total: every
mysql::Value input, with no error or panic path, yields a string.  The
embedding mirrors each arm of the source match, with the one fallible
sub-operation (String::from_utf8) handled by the lossy debug fallback
and the u32 fold of the Time arm carried out with the wrapping
arithmetic of the release profile; on top of totality, the conjuncts
evaluate the coercion on all the edge inputs named by the claim:
Null, non-UTF-8 bytes, the minimum i64, the maximum u64, Date with
zero and non-zero time-of-day, and negative multi-day Time. -/
theorem mysql_value_to_string_total_and_edges :
    (∀ v : Value, ∃ s : String, mysql_value_to_string v = s)
    ∧ mysql_value_to_string .NULL = ""
    ∧ mysql_value_to_string (.Int (-9223372036854775808)) = "-9223372036854775808"
    ∧ mysql_value_to_string (.UInt 18446744073709551615) = "18446744073709551615"
    ∧ mysql_value_to_string (.Bytes [255, 254, 253]) = "[255, 254, 253]"
    ∧ mysql_value_to_string (.Bytes [104, 101, 108, 108, 111]) = "hello"
    ∧ mysql_value_to_string (.Date 2023 12 25 0 0 0 0) = "2023-12-25"
    ∧ mysql_value_to_string (.Date 2023 12 25 14 30 45 123456) = "2023-12-25 14:30:45.123456"
    ∧ mysql_value_to_string (.Time true 1 2 30 45 0) = "-26:30:45.000000"
    ∧ mysql_value_to_string (.Time false 0 14 30 45 123456) = "14:30:45.123456" :=
  ⟨fun v => ⟨mysql_value_to_string v, rfl⟩, by decide, by decide, by decide, by decide,
    by decide, by decide, by decide, by decide, by decide⟩

/-- C5: a database NULL coerces to the empty string, and the JSON
writer emits an empty cell as the JSON string value, never as JSON
null. -/
theorem null_flattens_to_empty_string_everywhere :
    mysql_value_to_string .NULL = "" ∧ inferJsonValue "" = .str ""
      ∧ inferJsonValue "" ≠ .null :=
  ⟨rfl, by decide, by decide⟩

/-- C6 counterexample: the days fold of the Time arm is u32 arithmetic
and wraps modulo 2^32, so at days = 178956971 and hours = 2 the hours
field is (178956971 * 24 + 2) mod 2^32 = 10, not the unbounded value
4294967306 the claim predicts. -/
theorem time_days_fold_wraps :
    mysql_value_to_string (.Time false 178956971 2 30 45 0) = "10:30:45.000000"
      ∧ mysql_value_to_string (.Time false 178956971 2 30 45 0) ≠ "4294967306:30:45.000000" :=
  ⟨by decide, by decide⟩

/-- C6 amended: the Time rendering prefixes a minus sign exactly when
negative holds; when days > 0 the hours field is the u32 value
(days * 24 + hours) mod 2^32, printed at unbounded width (zero-padded
to a minimum of 2 digits, never truncated), minutes and seconds are
2-digit zero-padded and microseconds 6-digit zero-padded; in
particular Time(true,1,2,30,45,0) renders as -26:30:45.000000. -/
theorem time_format_spec :
    (∀ (negative : Bool) (days hours minutes seconds microseconds : Nat),
      mysql_value_to_string (.Time negative days hours minutes seconds microseconds) =
        (if negative then "-" else "") ++
          (if 0 < days then padZeros 2 ((days * 24 + hours) % 4294967296)
           else padZeros 2 hours) ++
          ":" ++ padZeros 2 minutes ++ ":" ++ padZeros 2 seconds ++ "." ++
          padZeros 6 microseconds)
    ∧ mysql_value_to_string (.Time true 1 2 30 45 0) = "-26:30:45.000000" := by
  refine ⟨?_, by decide⟩
  intro negative days hours minutes seconds microseconds
  by_cases hd : 0 < days <;> simp [mysql_value_to_string, hd]

/-- C7: the Date rendering is YYYY-MM-DD when hour, minute, second and
microsecond are all zero, and otherwise YYYY-MM-DD HH:MM:SS.UUUUUU,
with the year zero-padded to 4 digits, month, day and the time fields
to 2 digits and the microseconds to 6 digits. -/
theorem date_format_spec :
    (∀ year month day hour minute second microsecond : Nat,
      mysql_value_to_string (.Date year month day hour minute second microsecond) =
        if hour = 0 ∧ minute = 0 ∧ second = 0 ∧ microsecond = 0 then
          padZeros 4 year ++ "-" ++ padZeros 2 month ++ "-" ++ padZeros 2 day
        else
          padZeros 4 year ++ "-" ++ padZeros 2 month ++ "-" ++ padZeros 2 day ++ " " ++
            padZeros 2 hour ++ ":" ++ padZeros 2 minute ++ ":" ++ padZeros 2 second ++ "." ++
            padZeros 6 microsecond)
    ∧ mysql_value_to_string (.Date 2023 12 25 0 0 0 0) = "2023-12-25"
    ∧ mysql_value_to_string (.Date 2023 12 25 14 30 45 123456) = "2023-12-25 14:30:45.123456" :=
  ⟨fun _ _ _ _ _ _ _ => rfl, by decide, by decide⟩

set_option maxRecDepth 100000 in
/-- C3: the JSON writer assigns each cell value by the exact priority
order of the source: the empty string stays the JSON string value and
is never null (conjuncts 1 and 2); a u64-parseable string becomes the
exact unsigned JSON number, so the u64 maximum round-trips (conjuncts
3 and 4); otherwise an i64-parseable string becomes a signed JSON
number (conjunct 5); otherwise an f64-parseable string becomes a JSON
number when the parsed value is finite (conjunct 6) and falls back to
the verbatim string when it overflows, as 1.23e999 does (conjuncts 7,
8 and 9); otherwise a case-insensitive match of true or false becomes
a JSON boolean (conjuncts 10 and 11); otherwise the value stays a JSON
string verbatim (conjunct 12). -/
theorem json_type_inference_priority :
    (∀ v : String, inferJsonValue v ≠ .null)
    ∧ inferJsonValue "" = .str ""
    ∧ (∀ (v : String) (n : Nat), rustParseU64 v = some n → inferJsonValue v = .numU n)
    ∧ inferJsonValue "18446744073709551615" = .numU 18446744073709551615
    ∧ (∀ (v : String) (i : Int), rustParseU64 v = none → rustParseI64 v = some i →
        inferJsonValue v = .numI i)
    ∧ (∀ (v : String) (m e : Int), rustParseU64 v = none → rustParseI64 v = none →
        rustParseF64 v = some (some (m, e)) → decFinite m e = true →
        inferJsonValue v = .numF m e)
    ∧ (∀ (v : String) (m e : Int), rustParseU64 v = none → rustParseI64 v = none →
        rustParseF64 v = some (some (m, e)) → decFinite m e = false →
        inferJsonValue v = .str v)
    ∧ (∀ v : String, rustParseU64 v = none → rustParseI64 v = none →
        rustParseF64 v = some none → inferJsonValue v = .str v)
    ∧ inferJsonValue "1.23e999" = .str "1.23e999"
    ∧ (∀ v : String, rustParseU64 v = none → rustParseI64 v = none → rustParseF64 v = none →
        rustToLowercase v = "true" → inferJsonValue v = .bool true)
    ∧ (∀ v : String, rustParseU64 v = none → rustParseI64 v = none → rustParseF64 v = none →
        rustToLowercase v = "false" → inferJsonValue v = .bool false)
    ∧ (∀ v : String, v ≠ "" → rustParseU64 v = none → rustParseI64 v = none →
        rustParseF64 v = none → rustToLowercase v ≠ "true" → rustToLowercase v ≠ "false" →
        inferJsonValue v = .str v) := by
  refine ⟨?_, by decide, ?_, by decide, ?_, ?_, ?_, ?_, ?_, ?_, ?_, ?_⟩
  · intro v
    unfold inferJsonValue
    repeat' split
    all_goals simp
  · intro v n h
    have hv : v ≠ "" := by
      intro he
      rw [he] at h
      exact Option.noConfusion ((by decide : rustParseU64 "" = none) ▸ h)
    simp [inferJsonValue, hv, h]
  · intro v i hU hI
    have hv : v ≠ "" := by
      intro he
      rw [he] at hI
      exact Option.noConfusion ((by decide : rustParseI64 "" = none) ▸ hI)
    simp [inferJsonValue, hv, hU, hI]
  · intro v m e hU hI hF hFin
    have hv : v ≠ "" := by
      intro he
      rw [he] at hF
      exact Option.noConfusion ((by decide : rustParseF64 "" = none) ▸ hF)
    simp [inferJsonValue, hv, hU, hI, hF, hFin]
  · intro v m e hU hI hF hFin
    have hv : v ≠ "" := by
      intro he
      rw [he] at hF
      exact Option.noConfusion ((by decide : rustParseF64 "" = none) ▸ hF)
    simp [inferJsonValue, hv, hU, hI, hF, hFin]
  · intro v hU hI hF
    have hv : v ≠ "" := by
      intro he
      rw [he] at hF
      exact Option.noConfusion ((by decide : rustParseF64 "" = none) ▸ hF)
    simp [inferJsonValue, hv, hU, hI, hF]
  · decide
  · intro v hU hI hF hT
    have hv : v ≠ "" := by
      intro he
      rw [he] at hT
      exact absurd hT (by decide)
    simp [inferJsonValue, hv, hU, hI, hF, hT]
  · intro v hU hI hF hFalse
    have hv : v ≠ "" := by
      intro he
      rw [he] at hFalse
      exact absurd hFalse (by decide)
    have hT : rustToLowercase v ≠ "true" := by
      rw [hFalse]
      decide
    simp [inferJsonValue, hv, hU, hI, hF, hT, hFalse]
  · intro v hv hU hI hF hT hFalse
    simp [inferJsonValue, hv, hU, hI, hF, hT, hFalse]

set_option maxRecDepth 100000 in
/-- Witness for C3: the priority components applied at concrete cells
covering the unsigned, signed, float, boolean and verbatim branches. -/
theorem json_type_inference_priority_witness :
    inferJsonValue "42" = .numU 42
    ∧ inferJsonValue "-7" = .numI (-7)
    ∧ inferJsonValue "1.5" = .numF 15 (-1)
    ∧ inferJsonValue "TRUE" = .bool true
    ∧ inferJsonValue "FALSE" = .bool false
    ∧ inferJsonValue "abc" = .str "abc" :=
  ⟨json_type_inference_priority.2.2.1 "42" 42 (by decide),
    json_type_inference_priority.2.2.2.2.1 "-7" (-7) (by decide) (by decide),
    json_type_inference_priority.2.2.2.2.2.1 "1.5" 15 (-1) (by decide) (by decide) (by decide)
      (by decide),
    json_type_inference_priority.2.2.2.2.2.2.2.2.2.1 "TRUE" (by decide) (by decide) (by decide)
      (by decide),
    json_type_inference_priority.2.2.2.2.2.2.2.2.2.2.1 "FALSE" (by decide) (by decide)
      (by decide) (by decide),
    json_type_inference_priority.2.2.2.2.2.2.2.2.2.2.2 "abc" (by decide) (by decide) (by decide)
      (by decide) (by decide) (by decide)⟩

/-- C2: whenever two or more of the three TLS selectors are set,
from_cli_args fails with MutuallyExclusiveFlags whose flags string is
the comma-joined list of every set selector, and that list names each
selector that was set, never just the first conflicting pair. -/
theorem mutually_exclusive_flags_name_all :
    ∀ (fileExists : String → Bool) (ca_file : Option String)
      (skip_hostname accept_invalid : Bool),
      1 < tlsFlagCount ca_file skip_hostname accept_invalid →
        from_cli_args fileExists ca_file skip_hostname accept_invalid =
          .error (.MutuallyExclusiveFlags
            (String.intercalate ", " (setFlagNames ca_file skip_hostname accept_invalid)))
        ∧ (ca_file.isSome = true →
            "--tls-ca-file" ∈ setFlagNames ca_file skip_hostname accept_invalid)
        ∧ (skip_hostname = true →
            "--insecure-skip-hostname-verify" ∈ setFlagNames ca_file skip_hostname accept_invalid)
        ∧ (accept_invalid = true →
            "--allow-invalid-certificate" ∈ setFlagNames ca_file skip_hostname accept_invalid) := by
  intro fileExists ca_file skip_hostname accept_invalid h
  refine ⟨by simp [from_cli_args, h], ?_, ?_, ?_⟩
  · intro hca
    simp [setFlagNames, hca]
  · intro hsh
    simp [setFlagNames, hsh]
  · intro hai
    simp [setFlagNames, hai]

/-- Witness for C2: all three selectors set at once yields the error
naming all three flags. -/
theorem mutually_exclusive_flags_name_all_witness :
    from_cli_args (fun _ => true) (some "ca.pem") true true =
      .error (.MutuallyExclusiveFlags
        (String.intercalate ", " (setFlagNames (some "ca.pem") true true)))
    ∧ "--tls-ca-file" ∈ setFlagNames (some "ca.pem") true true
    ∧ "--insecure-skip-hostname-verify" ∈ setFlagNames (some "ca.pem") true true
    ∧ "--allow-invalid-certificate" ∈ setFlagNames (some "ca.pem") true true :=
  have h := mutually_exclusive_flags_name_all (fun _ => true) (some "ca.pem") true true
    (by decide)
  ⟨h.1, h.2.1 rfl, h.2.2.1 rfl, h.2.2.2 rfl⟩

/-- C4: with at most one selector set, from_cli_args derives the mode
deterministically: none set gives Platform, each selector alone gives
its mode, a nonexistent CA path gives CaFileNotFound instead of a mode,
and every successful configuration has enabled true. -/
theorem tls_mode_derivation :
    (∀ fileExists : String → Bool,
      from_cli_args fileExists none false false = .ok ⟨true, .Platform⟩)
    ∧ (∀ fileExists : String → Bool,
        from_cli_args fileExists none true false = .ok ⟨true, .SkipHostnameVerification⟩)
    ∧ (∀ fileExists : String → Bool,
        from_cli_args fileExists none false true = .ok ⟨true, .AcceptInvalid⟩)
    ∧ (∀ (fileExists : String → Bool) (p : String), fileExists p = true →
        from_cli_args fileExists (some p) false false = .ok ⟨true, .CustomCa p⟩)
    ∧ (∀ (fileExists : String → Bool) (p : String), fileExists p = false →
        from_cli_args fileExists (some p) false false = .error (.CaFileNotFound p))
    ∧ (∀ (fileExists : String → Bool) (ca_file : Option String)
        (skip_hostname accept_invalid : Bool) (cfg : TlsConfig),
        from_cli_args fileExists ca_file skip_hostname accept_invalid = .ok cfg →
          cfg.enabled = true) := by
  refine ⟨fun _ => rfl, fun _ => rfl, fun _ => rfl, ?_, ?_, ?_⟩
  · intro fileExists p h
    simp [from_cli_args, tlsFlagCount, h]
  · intro fileExists p h
    simp [from_cli_args, tlsFlagCount, h]
  · intro fileExists ca_file skip_hostname accept_invalid cfg h
    unfold from_cli_args at h
    split at h
    · exact absurd h (by simp)
    · rcases ca_file with _ | p
      · cases skip_hostname <;> cases accept_invalid <;> simp_all <;> subst h <;> rfl
      · by_cases hf : fileExists p = true <;> simp_all
        subst h
        rfl

/-- Witness for C4: the CA-path branches applied at a path that
exists and one that does not, and the enabled conjunct applied at the
Platform result. -/
theorem tls_mode_derivation_witness :
    from_cli_args (fun _ => true) (some "ca.pem") false false =
      .ok ⟨true, .CustomCa "ca.pem"⟩
    ∧ from_cli_args (fun _ => false) (some "ca.pem") false false =
      .error (.CaFileNotFound "ca.pem")
    ∧ (⟨true, .Platform⟩ : TlsConfig).enabled = true :=
  ⟨tls_mode_derivation.2.2.2.1 (fun _ => true) "ca.pem" rfl,
    tls_mode_derivation.2.2.2.2.1 (fun _ => false) "ca.pem" rfl,
    tls_mode_derivation.2.2.2.2.2 (fun _ => true) none false false ⟨true, .Platform⟩ rfl⟩

/-- C8: materializing a CustomCa configuration through to_ssl_opts
validates the CA file at that point: a missing file yields
CaFileNotFound; a file that exists but cannot be read, fails PEM
parsing, or holds zero certificates yields InvalidCaFormat with the
corresponding message; a nonempty certificate list succeeds with the
CA path installed; and the two error constructors are distinct. -/
theorem custom_ca_validated_at_materialization :
    ∀ (fs : String → FileState) (p : String),
      (fs p = .absent →
        to_ssl_opts fs ⟨true, .CustomCa p⟩ = .error (.CaFileNotFound p))
      ∧ (∀ ioMsg : String, fs p = .unreadable ioMsg →
          to_ssl_opts fs ⟨true, .CustomCa p⟩ =
            .error (.InvalidCaFormat p ("Cannot read certificate file: " ++ ioMsg)))
      ∧ (∀ msg : String, fs p = .parseFailure msg →
          to_ssl_opts fs ⟨true, .CustomCa p⟩ =
            .error (.InvalidCaFormat p ("Failed to parse PEM certificates: " ++ msg)))
      ∧ (fs p = .certificates [] →
          to_ssl_opts fs ⟨true, .CustomCa p⟩ =
            .error (.InvalidCaFormat p "No valid certificates found in file"))
      ∧ (∀ certs : List (List Nat), certs ≠ [] → fs p = .certificates certs →
          to_ssl_opts fs ⟨true, .CustomCa p⟩ = .ok (some ⟨some p, false, false⟩))
      ∧ (∀ q r m : String, TlsError.CaFileNotFound q ≠ TlsError.InvalidCaFormat r m) := by
  intro fs p
  refine ⟨?_, ?_, ?_, ?_, ?_, ?_⟩
  · intro h
    simp [to_ssl_opts, validate_ca_file, load_ca_certificates, Except.map, h]
  · intro ioMsg h
    simp [to_ssl_opts, validate_ca_file, load_ca_certificates, Except.map, h]
  · intro msg h
    simp [to_ssl_opts, validate_ca_file, load_ca_certificates, Except.map, h]
  · intro h
    simp [to_ssl_opts, validate_ca_file, load_ca_certificates, Except.map, h]
  · intro certs hne h
    simp [to_ssl_opts, validate_ca_file, load_ca_certificates, Except.map, h, hne]
  · intro q r m
    simp

/-- Witness for C8: the validation branches applied under concrete
filesystem states. -/
theorem custom_ca_validated_at_materialization_witness :
    to_ssl_opts (fun _ => .absent) ⟨true, .CustomCa "ca.pem"⟩ =
      .error (.CaFileNotFound "ca.pem")
    ∧ to_ssl_opts (fun _ => .certificates []) ⟨true, .CustomCa "ca.pem"⟩ =
      .error (.InvalidCaFormat "ca.pem" "No valid certificates found in file")
    ∧ to_ssl_opts (fun _ => .certificates [[48]]) ⟨true, .CustomCa "ca.pem"⟩ =
      .ok (some ⟨some "ca.pem", false, false⟩)
    ∧ TlsError.CaFileNotFound "ca.pem" ≠ TlsError.InvalidCaFormat "ca.pem" "m" :=
  ⟨(custom_ca_validated_at_materialization (fun _ => .absent) "ca.pem").1 rfl,
    (custom_ca_validated_at_materialization (fun _ => .certificates []) "ca.pem").2.2.2.1 rfl,
    (custom_ca_validated_at_materialization (fun _ => .certificates [[48]]) "ca.pem").2.2.2.2.1
      [[48]] (by decide) rfl,
    (custom_ca_validated_at_materialization (fun _ => .absent) "ca.pem").2.2.2.2.2 "ca.pem"
      "ca.pem" "m"⟩

/-- Does the character list contain the second list as a contiguous
sublist? -/
def charsHaveSub (text pat : List Char) : Bool :=
  match text with
  | [] => pat = []
  | _ :: rest => pat.isPrefixOf text || charsHaveSub rest pat

/-- Does the string contain the given substring? -/
def strContainsSub (s pat : String) : Bool := charsHaveSub s.data pat.data

/-- C9: the suggested CLI flag is consistent with the classification
axes: a hostname error suggests the skip-hostname flag, a certificate
error suggests a flag string containing the accept-invalid flag, and a
server-configuration or client-configuration error suggests nothing. -/
theorem suggest_cli_flag_consistent :
    ∀ e : TlsError,
      (e.is_hostname_error = true →
        e.suggest_cli_flag = some "--insecure-skip-hostname-verify")
      ∧ (e.is_certificate_error = true →
          e.suggest_cli_flag.isSome = true ∧
            strContainsSub ((e.suggest_cli_flag).getD "") "--allow-invalid-certificate" = true)
      ∧ ((e.is_server_configuration_error = true ∨ e.is_client_configuration_error = true) →
          e.suggest_cli_flag = none) := by
  intro e
  refine ⟨?_, ?_, ?_⟩
  · intro h
    cases e <;> first | rfl | exact absurd h (by simp [TlsError.is_hostname_error])
  · intro h
    cases e <;>
      first
      | exact ⟨rfl, by simp only [TlsError.suggest_cli_flag]; decide⟩
      | exact absurd h (by simp [TlsError.is_certificate_error])
  · intro h
    cases e <;>
      first
      | rfl
      | exact absurd h (by simp [TlsError.is_server_configuration_error,
          TlsError.is_client_configuration_error])

/-- Witness for C9: the three consistency components applied at a
hostname error, a certificate error whose suggestion also names the CA
flag, and one server-side and one client-side configuration error. -/
theorem suggest_cli_flag_consistent_witness :
    TlsError.suggest_cli_flag (.HostnameVerificationFailed "db.example.com" "mismatch") =
      some "--insecure-skip-hostname-verify"
    ∧ ((TlsError.suggest_cli_flag (.UnknownCertificateAuthority "untrusted")).isSome = true ∧
        strContainsSub ((TlsError.suggest_cli_flag
          (.UnknownCertificateAuthority "untrusted")).getD "")
            "--allow-invalid-certificate" = true)
    ∧ TlsError.suggest_cli_flag (.ServerAlert "alert") = none
    ∧ TlsError.suggest_cli_flag (.CaFileNotFound "ca.pem") = none :=
  ⟨(suggest_cli_flag_consistent (.HostnameVerificationFailed "db.example.com" "mismatch")).1 rfl,
    (suggest_cli_flag_consistent (.UnknownCertificateAuthority "untrusted")).2.1 rfl,
    (suggest_cli_flag_consistent (.ServerAlert "alert")).2.2 (Or.inl rfl),
    (suggest_cli_flag_consistent (.CaFileNotFound "ca.pem")).2.2 (Or.inr rfl)⟩

/-- C10: the four classification predicates are pairwise disjoint (no
error satisfies more than one), and the variants ConnectionFailed,
HandshakeFailed and InsecureCredentials satisfy none of the four, so
the axes cover only part of the taxonomy. -/
theorem classification_axes_disjoint_and_partial :
    (∀ e : TlsError, TlsError.classificationCount e ≤ 1)
    ∧ (∀ m : String, TlsError.classificationCount (.ConnectionFailed m) = 0)
    ∧ (∀ m : String, TlsError.classificationCount (.HandshakeFailed m) = 0)
    ∧ TlsError.classificationCount .InsecureCredentials = 0 := by
  refine ⟨?_, fun m => rfl, fun m => rfl, rfl⟩
  intro e
  cases e <;>
    simp [TlsError.classificationCount, TlsError.is_certificate_error,
      TlsError.is_hostname_error, TlsError.is_server_configuration_error,
      TlsError.is_client_configuration_error]

end GoldDigger
